import Mathlib

/-!
Shallow embedding of the bible-study-companion client (TypeScript) in Lean 4.

The embedding covers:
* the JSON value space exchanged with the Supabase backend (`Json`), with
  JavaScript truthiness;
* the profile wire row and its decode/encode pair `fromSupabase` / `toSupabase`
  (services/authService.ts);
* the resilient profile fetch loop `getUserData` (services/authService.ts);
* the chapter-fetch orchestration `fetchAllChapterData` and the cache key
  `getCacheKey` (components/StudyApp.tsx), modelled as a pure function of the
  outcomes of the three upstream fetches;
* the robust local-storage reader `robustSafeParse` (utils/cache.ts) together
  with an executable model of `JSON.parse`;
* the chapter-completion updater `markChapterComplete` (components/StudyApp.tsx).

JavaScript numbers are modelled as integers (`Int`); the code under study never
manipulates fractional values. Thrown errors are modelled by their `message`
string.
-/

namespace BibleStudy

/-- JSON values as delivered by the backend (`Json` in supabaseClient.ts).
Numbers are modelled as integers. -/
inductive Json where
  | null : Json
  | bool (b : Bool) : Json
  | num (n : Int) : Json
  | str (s : String) : Json
  | arr (xs : List Json) : Json
  | obj (fields : List (String × Json)) : Json

/-- JavaScript truthiness of a JSON value: `null`, `false`, `0` and the empty
string are falsy; every array and object (including `{}` and `[]`) is truthy. -/
def Json.truthy : Json → Bool
  | .null => false
  | .bool b => b
  | .num n => n != 0
  | .str s => s != ""
  | .arr _ => true
  | .obj _ => true

/-- Whether a JSON value is an array. -/
def Json.isArr : Json → Bool
  | .arr _ => true
  | _ => false

/-- Whether a JSON value is an object. -/
def Json.isObj : Json → Bool
  | .obj _ => true
  | _ => false

/-- Property access `j[name]` on a JSON value: defined only on objects
(first binding wins, duplicate keys do not arise on the wire). -/
def Json.getField : Json → String → Option Json
  | .obj fields, name => fields.lookup name
  | _, _ => none

/-- `ChapterIdentifier` from constants.ts: a book name and a chapter number. -/
structure ChapterIdentifier where
  book : String
  chapter : Int
deriving DecidableEq, Repr

/-- A verse as returned by bible-api.com (`Verse` in types.ts). -/
structure Verse where
  book_id : String
  book_name : String
  chapter : Int
  verse : Int
  text : String
deriving DecidableEq, Repr

/-- `s.replace(/\s/g, c)`: every whitespace character replaced by `c`. -/
def replaceWhitespaceWith (c : Char) (s : String) : String :=
  String.mk (s.data.map (fun ch => if ch.isWhitespace then c else ch))

/-- `getCacheKey` from components/StudyApp.tsx:
`identifier.book.replace(/\s/g, '_') ++ "-" ++ identifier.chapter ++ "-" ++ translation`. -/
def getCacheKey (identifier : ChapterIdentifier) (translation : String) : String :=
  replaceWhitespaceWith '_' identifier.book ++ "-" ++ toString identifier.chapter
    ++ "-" ++ translation

/-- Two book strings that agree character by character except that matching
positions may hold different whitespace characters. -/
def wsVariant : List Char → List Char → Bool
  | [], [] => true
  | x :: xs, y :: ys =>
      (x == y || (x.isWhitespace && y.isWhitespace)) && wsVariant xs ys
  | _, _ => false

/-- `markChapterComplete` from components/StudyApp.tsx: issues one profile
update appending the chapter key when a chapter is current and its key is not
already recorded; otherwise issues no update.  The returned value is the
`completedChapters` list carried by the update, `none` when no update is sent. -/
def markChapterComplete (completedChapters : List String)
    (chapterIdentifierKey : Option String) : Option (List String) :=
  match chapterIdentifierKey with
  | none => none
  | some key =>
      if completedChapters.contains key then none
      else some (completedChapters ++ [key])

/-- The `profiles` table wire row (`ProfileRow` in supabaseClient.ts).  Every
field is a raw JSON value: the backend may deliver `null`, a missing field
(modelled as `null`) or a wrongly-typed value for any of them. -/
structure ProfileRow where
  id : Json
  updated_at : Json
  username : Json
  study_mode : Json
  read_through_index : Json
  user_selected_chapter : Json
  completed_chapters : Json
  bookmarks : Json
  notes : Json
  cached_content : Json
  translation : Json

/-- Type guard `isChapterIdentifier` from services/authService.ts: truthy object
with a string `book` and a numeric `chapter`; returns the validated identifier. -/
def isChapterIdentifier (obj : Json) : Option ChapterIdentifier :=
  match obj.getField "book", obj.getField "chapter" with
  | some (.str b), some (.num c) => some ⟨b, c⟩
  | _, _ => none

/-- The decoded `UserData` (types.ts) as `fromSupabase` actually builds it:
fields guarded with `Array.isArray` are genuine lists, the selected chapter is
validated, while the `|| default` fields carry whatever truthy JSON value the
wire held. -/
structure UserData where
  id : Json
  username : Json
  studyMode : Json
  readThroughIndex : Json
  userSelectedChapter : Option ChapterIdentifier
  completedChapters : List Json
  bookmarks : List Json
  notes : Json
  cachedContent : Json
  translation : Json
  updated_at : Option Json

/-- `fromSupabase` from services/authService.ts: decode one wire profile row
into `UserData`.  `x || d` is JavaScript: the default replaces any falsy value;
`x ?? d` replaces only `null`/`undefined`. -/
def fromSupabase (profile : ProfileRow) : UserData :=
  let rawChapter := profile.user_selected_chapter
  let validatedChapter := isChapterIdentifier rawChapter
  { id := profile.id
    username := if profile.username.truthy then profile.username else .str "User"
    studyMode := if profile.study_mode.truthy then profile.study_mode else .str "Read Through"
    readThroughIndex :=
      match profile.read_through_index with
      | .null => .num 0
      | v => v
    userSelectedChapter := validatedChapter
    completedChapters :=
      match profile.completed_chapters with
      | .arr xs => xs
      | _ => []
    bookmarks :=
      match profile.bookmarks with
      | .arr xs => xs
      | _ => []
    notes := if profile.notes.truthy then profile.notes else .obj []
    cachedContent := if profile.cached_content.truthy then profile.cached_content else .obj []
    translation := if profile.translation.truthy then profile.translation else .str "web"
    updated_at := if profile.updated_at.truthy then some profile.updated_at else none }

/-- The members of the `StudyMode` enumeration (types.ts), as wire strings. -/
def validStudyMode : Json → Bool
  | .str s =>
      s == "Random Chapter" || s == "Book Study" || s == "Read Through"
        || s == "Bookmarks" || s == "Scripture Reader"
  | _ => false

/-- One `(key, value)` fragment of the wire patch: present when the partial
update defines the field, absent otherwise. -/
def patchEntry (key : String) (v : Option Json) : List (String × Json) :=
  match v with
  | some x => [(key, x)]
  | none => []

/-- A `Partial<UserData>`: each field either absent (`undefined`) or present
with a JSON value (which may itself be `null`, as for `userSelectedChapter`). -/
structure PartialUserData where
  username : Option Json := none
  studyMode : Option Json := none
  readThroughIndex : Option Json := none
  userSelectedChapter : Option Json := none
  completedChapters : Option Json := none
  bookmarks : Option Json := none
  notes : Option Json := none
  cachedContent : Option Json := none
  translation : Option Json := none

/-- `toSupabase` from services/authService.ts: build the wire patch from the
fields the partial update defines, in the order of the source checks. -/
def toSupabase (data : PartialUserData) : List (String × Json) :=
  patchEntry "username" data.username ++
  (patchEntry "study_mode" data.studyMode ++
  (patchEntry "read_through_index" data.readThroughIndex ++
  (patchEntry "user_selected_chapter" data.userSelectedChapter ++
  (patchEntry "completed_chapters" data.completedChapters ++
  (patchEntry "bookmarks" data.bookmarks ++
  (patchEntry "notes" data.notes ++
  (patchEntry "cached_content" data.cachedContent ++
  patchEntry "translation" data.translation)))))))

/-- One attempt of the profile query in `getUserData`
(services/authService.ts): a row, a query error carrying a PostgREST code
(`"PGRST116"` is "zero rows"), a thrown exception, or the 2-second watchdog
timeout. -/
inductive QueryOutcome where
  | ok (row : ProfileRow)
  | err (code : String)
  | exn
  | timeout

/-- How `getUserData` ends: the async function returns a value, or an
exception escapes it (its promise rejects). -/
inductive FetchTermination where
  | returned (r : Option UserData)
  | threw

/-- Observable outcome of `getUserData`: how many query attempts ran, the
sleeps (ms) performed between attempts, and how the function ended. -/
structure GetResult where
  attempts : Nat
  delays : List Nat
  outcome : FetchTermination

/-- `getUserData` from services/authService.ts, as a function of the outcome of
each query attempt.

The source wraps the query in a `for (attempt = 1; attempt <= 3; attempt++)`
loop, but every iteration terminates the whole function: `data` and `error`
are `const`-declared inside the `try` block, yet the retry logic after the
`catch` reads them again (`if (error && error.code !== 'PGRST116')`, then
`if (data)`), where both names are unbound.  So a row returns from inside the
`try`; a thrown exception returns `null` from the `catch`; a tripped watchdog
returns `null` from the `didTimeout` check; and every query-error outcome —
`PGRST116` "row not found" included — falls out of the `try` and raises a
`ReferenceError` at the unbound `error` read, rejecting the promise.  The
`await delay(attempt * 500)` backoff, the retry and the final `return null`
are unreachable, so the loop never reaches a second iteration. -/
def getUserData (outcomes : Nat → QueryOutcome) : GetResult :=
  match outcomes 1 with
  | .ok row => ⟨1, [], .returned (some (fromSupabase row))⟩
  | .exn => ⟨1, [], .returned none⟩
  | .timeout => ⟨1, [], .returned none⟩
  | .err _ => ⟨1, [], .threw⟩

/-- A key verse with its analysis (part of `DeepDiveData`, types.ts). -/
structure KeyVerse where
  verse : String
  analysis : String
deriving DecidableEq, Repr

/-- `DeepDiveData` from types.ts. -/
structure DeepDiveData where
  summaryAndThemes : String
  historicalContext : String
  keyVerses : List KeyVerse
  reflectionQuestions : List String
deriving DecidableEq, Repr

/-- `CrossReference` from types.ts. -/
structure CrossReference where
  reference : String
  explanation : String
  verse : Option Int
deriving DecidableEq, Repr

/-- `WordStudy` from types.ts. -/
structure WordStudy where
  originalWord : String
  transliteration : String
  strongsNumber : String
  meaning : String
  contextualUse : String
  verse : Option Int
deriving DecidableEq, Repr

/-- `HistoricalContext` from types.ts. -/
structure HistoricalContext where
  geography : String
  customs : String
  politicalClimate : String
deriving DecidableEq, Repr

/-- `LiteraryAnalysis` from types.ts (`structure` is a Lean keyword, hence the
quoted field name). -/
structure LiteraryAnalysis where
  «structure» : String
  themes : List String
deriving DecidableEq, Repr

/-- `Interpretation` from types.ts. -/
structure Interpretation where
  viewpoint : String
  summary : String
  verse : Option Int
deriving DecidableEq, Repr

/-- `AllEnrichmentData` from types.ts. -/
structure AllEnrichmentData where
  crossReferences : List CrossReference
  wordStudies : List WordStudy
  historicalContext : HistoricalContext
  literaryAnalysis : LiteraryAnalysis
  interpretations : List Interpretation
deriving DecidableEq, Repr

/-- The all-empty enrichment object the catch block of `fetchAllChapterData`
synthesizes: empty arrays and empty-string sub-fields. -/
def emptyEnrichment : AllEnrichmentData :=
  { crossReferences := []
    wordStudies := []
    historicalContext := { geography := "", customs := "", politicalClimate := "" }
    literaryAnalysis := { «structure» := "", themes := [] }
    interpretations := [] }

/-- `CachedChapterContent` from types.ts: the bundle written to the persistent
cache. -/
structure CachedChapterContent where
  verses : List Verse
  deepDiveData : Option DeepDiveData
  allEnrichmentData : AllEnrichmentData
deriving DecidableEq, Repr

/-- Whether `pat` is a prefix of `s`, character by character. -/
def charsStartWith : List Char → List Char → Bool
  | _, [] => true
  | [], _ :: _ => false
  | c :: cs, p :: ps => c = p && charsStartWith cs ps

/-- Whether `pat` occurs somewhere in `s`. -/
def charsInclude : List Char → List Char → Bool
  | [], pat => pat.isEmpty
  | c :: cs, pat => charsStartWith (c :: cs) pat || charsInclude cs pat

/-- `s.includes(pat)` of JavaScript: the pattern occurs in the string. -/
def strIncludes (s pat : String) : Bool :=
  charsInclude s.data pat.data

/-- The outcomes of the three upstream fetches during one run of
`fetchAllChapterData`: the verse-text fetch either returns a verse list or
throws an error (carrying `error.message`); `getChapterDeepDive` returns a
value or `null`; `getAllChapterEnrichments` returns a value or `null` (the
parsed response body may be the JSON literal `null`). -/
structure FetchEnv where
  textResult : Except String (List Verse)
  deepDive : Option DeepDiveData
  enrichments : Option AllEnrichmentData

/-- Observable outcome of one run of `fetchAllChapterData`: the rendered state
(`verses`, `deepDiveData`, `allEnrichmentData`), the single backend cache write
when one is issued (the full merged `cachedContent` mapping), and whether the
deep-dive/enrichment fetches were started at all. -/
structure RunResult where
  verses : List Verse
  deepDiveData : Option DeepDiveData
  allEnrichmentData : Option AllEnrichmentData
  write : Option (String → Option CachedChapterContent)
  enrichmentFetchRan : Bool

/-- `fetchAllChapterData` from components/StudyApp.tsx as a pure function of
the cache state and the upstream fetch outcomes.

* cache hit: render the cached bundle, no fetch, no write;
* text fetch ok: start the deep-dive and enrichment fetches; cache the bundle
  through one `onUpdateUserData` call merging the new key into `cachedContent`
  exactly when the verse list is non-empty and both results are non-null;
* text fetch throws: jump to the catch block — the deep-dive and enrichment
  fetches never start; render one sentinel verse numbered 0 whose text
  distinguishes quota errors, plus the synthesized all-empty enrichment
  object; no write. -/
def fetchAllChapterData (cachedContent : String → Option CachedChapterContent)
    (currentChapter : ChapterIdentifier) (translation : String)
    (env : FetchEnv) : RunResult :=
  let cacheKey := getCacheKey currentChapter translation
  match cachedContent cacheKey with
  | some cachedData =>
      { verses := cachedData.verses
        deepDiveData := cachedData.deepDiveData
        allEnrichmentData := some cachedData.allEnrichmentData
        write := none
        enrichmentFetchRan := false }
  | none =>
      match env.textResult with
      | .ok chapterVerses =>
          let write :=
            match env.deepDive, env.enrichments with
            | some deepDive, some enrichments =>
                if chapterVerses.length > 0 then
                  some (fun k =>
                    if k = cacheKey then
                      some { verses := chapterVerses
                             deepDiveData := some deepDive
                             allEnrichmentData := enrichments }
                    else cachedContent k)
                else none
            | _, _ => none
          { verses := chapterVerses
            deepDiveData := env.deepDive
            allEnrichmentData := env.enrichments
            write := write
            enrichmentFetchRan := true }
      | .error msg =>
          let errorMessage :=
            if strIncludes msg "quota" then
              "Failed to load chapter data: Daily API quota exceeded. Please try again tomorrow."
            else
              "There was an error loading the chapter text: " ++ msg ++ ". Please try again."
          { verses := [{ book_id := ""
                         book_name := currentChapter.book
                         chapter := currentChapter.chapter
                         verse := 0
                         text := errorMessage }]
            deepDiveData := none
            allEnrichmentData := some emptyEnrichment
            write := none
            enrichmentFetchRan := false }

/-- JSON whitespace. -/
def jsonWs (c : Char) : Bool :=
  c = ' ' || c = '\t' || c = '\n' || c = '\r'

/-- Drop leading JSON whitespace. -/
def skipWs : List Char → List Char
  | [] => []
  | c :: cs => if jsonWs c then skipWs cs else c :: cs

/-- Match an expected literal tail (the `ull` of `null` and the like). -/
def stripChars : List Char → List Char → Option (List Char)
  | [], cs => some cs
  | _ :: _, [] => none
  | p :: ps, c :: cs => if c = p then stripChars ps cs else none

/-- The body of a JSON string after the opening quote: returns the decoded
characters and the input after the closing quote.  The escapes of the model
cover the forms the application stores. -/
def parseStringBody : List Char → Option (List Char × List Char)
  | [] => none
  | c :: cs =>
      if c = '"' then some ([], cs)
      else if c = '\\' then
        match cs with
        | [] => none
        | e :: cs2 =>
            let decoded : Option Char :=
              if e = '"' then some '"'
              else if e = '\\' then some '\\'
              else if e = '/' then some '/'
              else if e = 'n' then some '\n'
              else if e = 't' then some '\t'
              else if e = 'r' then some '\r'
              else none
            match decoded with
            | none => none
            | some ch =>
                match parseStringBody cs2 with
                | some (out, rest) => some (ch :: out, rest)
                | none => none
      else
        match parseStringBody cs with
        | some (out, rest) => some (c :: out, rest)
        | none => none

/-- Leading decimal digits and the rest of the input. -/
def spanDigits : List Char → List Char × List Char
  | [] => ([], [])
  | c :: cs =>
      if c.isDigit then
        let (ds, rest) := spanDigits cs
        (c :: ds, rest)
      else ([], c :: cs)

/-- Decimal digits to a natural number. -/
def digitsToNat (ds : List Char) : Nat :=
  ds.foldl (fun n c => n * 10 + (c.toNat - 48)) 0

mutual

/-- Recursive-descent parser for one JSON value (numbers restricted to
integers, matching the model).  The fuel bounds the nesting depth; `jsonParse`
supplies more fuel than any input can consume. -/
def parseValue : Nat → List Char → Option (Json × List Char)
  | 0, _ => none
  | _ + 1, [] => none
  | fuel + 1, c :: rest =>
      if c = 'n' then
        match stripChars ['u', 'l', 'l'] rest with
        | some cs => some (.null, cs)
        | none => none
      else if c = 't' then
        match stripChars ['r', 'u', 'e'] rest with
        | some cs => some (.bool true, cs)
        | none => none
      else if c = 'f' then
        match stripChars ['a', 'l', 's', 'e'] rest with
        | some cs => some (.bool false, cs)
        | none => none
      else if c = '"' then
        match parseStringBody rest with
        | some (out, cs) => some (.str (String.mk out), cs)
        | none => none
      else if c = '-' then
        match spanDigits rest with
        | ([], _) => none
        | (ds, cs) => some (.num (-(digitsToNat ds : Int)), cs)
      else if c.isDigit then
        match spanDigits (c :: rest) with
        | ([], _) => none
        | (ds, cs) => some (.num (digitsToNat ds : Int), cs)
      else if c = '[' then
        match skipWs rest with
        | ']' :: cs => some (.arr [], cs)
        | cs1 =>
            match parseValue fuel cs1 with
            | some (v, cs2) => parseArrayRest fuel cs2 [v]
            | none => none
      else if c = '{' then
        match skipWs rest with
        | '}' :: cs => some (.obj [], cs)
        | cs1 =>
            match parseMember fuel cs1 with
            | some (kv, cs2) => parseObjRest fuel cs2 [kv]
            | none => none
      else none

/-- After one array element: a comma continues the array, `]` closes it. -/
def parseArrayRest : Nat → List Char → List Json → Option (Json × List Char)
  | 0, _, _ => none
  | fuel + 1, cs, acc =>
      match skipWs cs with
      | ']' :: cs2 => some (.arr acc.reverse, cs2)
      | ',' :: cs2 =>
          match parseValue fuel (skipWs cs2) with
          | some (v, cs3) => parseArrayRest fuel cs3 (v :: acc)
          | none => none
      | _ => none

/-- One `"key": value` member of an object. -/
def parseMember : Nat → List Char → Option ((String × Json) × List Char)
  | 0, _ => none
  | fuel + 1, cs =>
      match skipWs cs with
      | '"' :: cs1 =>
          match parseStringBody cs1 with
          | some (key, cs2) =>
              match skipWs cs2 with
              | ':' :: cs3 =>
                  match parseValue fuel (skipWs cs3) with
                  | some (v, cs4) => some ((String.mk key, v), cs4)
                  | none => none
              | _ => none
          | none => none
      | _ => none

/-- After one object member: a comma continues the object, a brace closes it. -/
def parseObjRest : Nat → List Char → List (String × Json) → Option (Json × List Char)
  | 0, _, _ => none
  | fuel + 1, cs, acc =>
      match skipWs cs with
      | '}' :: cs2 => some (.obj acc.reverse, cs2)
      | ',' :: cs2 =>
          match parseMember fuel cs2 with
          | some (kv, cs3) => parseObjRest fuel cs3 (kv :: acc)
          | none => none
      | _ => none

end

/-- Model of `JSON.parse`: parse one value surrounded by optional whitespace;
any other input (the empty string among them) throws, modelled as `none`. -/
def jsonParse (s : String) : Option Json :=
  match parseValue (s.length + 1) (skipWs s.data) with
  | some (v, rest) => if skipWs rest = [] then some v else none
  | none => none

/-- Observable outcome of one `robustSafeParse` call: the returned value, the
local-storage state afterwards, and how many times the corruption callback ran. -/
structure RSPResult where
  value : Json
  store : List (String × String)
  corruptCalls : Nat

/-- `localStorage.removeItem`. -/
def removeItem (store : List (String × String)) (key : String) :
    List (String × String) :=
  store.filter (fun p => p.1 != key)

/-- `robustSafeParse` from utils/cache.ts: read `localStorage[key]`; a missing
key or a falsy raw string returns the fallback untouched; a string that parses
returns the parsed value; a string that fails to parse returns the fallback
after deleting the key and invoking the corruption callback once. -/
def robustSafeParse (store : List (String × String)) (key : String)
    (fallback : Json) : RSPResult :=
  match store.lookup key with
  | none => ⟨fallback, store, 0⟩
  | some raw =>
      if raw = "" then ⟨fallback, store, 0⟩
      else
        match jsonParse raw with
        | some v => ⟨v, store, 0⟩
        | none => ⟨fallback, removeItem store key, 1⟩

lemma map_replace_eq_of_wsVariant :
    ∀ xs ys : List Char, wsVariant xs ys = true →
      xs.map (fun ch => if ch.isWhitespace then '_' else ch) =
        ys.map (fun ch => if ch.isWhitespace then '_' else ch) := by
  intro xs
  induction xs with
  | nil =>
      intro ys h
      cases ys with
      | nil => rfl
      | cons y ys => simp [wsVariant] at h
  | cons x xs ih =>
      intro ys h
      cases ys with
      | nil => simp [wsVariant] at h
      | cons y ys =>
          simp only [wsVariant, Bool.and_eq_true, Bool.or_eq_true, beq_iff_eq] at h
          obtain ⟨h1, h2⟩ := h
          simp only [List.map_cons, ih ys h2, List.cons.injEq, and_true]
          rcases h1 with heq | ⟨hw1, hw2⟩
          · rw [heq]
          · simp [hw1, hw2]

/-- C7.  `getCacheKey` is a pure, deterministic function of the
`(book, chapter, translation)` triple, and two book names that differ only in
which whitespace character stands at a given position produce the same key:
every whitespace character is normalized to the fixed separator `_`. -/
theorem getCacheKey_deterministic_ws_normal (b1 b2 : String) (c : Int) (t : String)
    (h : wsVariant b1.data b2.data = true) :
    getCacheKey ⟨b1, c⟩ t = getCacheKey ⟨b1, c⟩ t ∧
    getCacheKey ⟨b1, c⟩ t = getCacheKey ⟨b2, c⟩ t := by
  refine ⟨rfl, ?_⟩
  unfold getCacheKey replaceWhitespaceWith
  rw [map_replace_eq_of_wsVariant b1.data b2.data h]

/-- Witness for C7 at a concrete input: a tab in place of a space in the book
name yields the same cache key. -/
theorem getCacheKey_deterministic_ws_normal_witness :
    getCacheKey ⟨"Song of Solomon", 2⟩ "web" = getCacheKey ⟨"Song of Solomon", 2⟩ "web" ∧
    getCacheKey ⟨"Song of Solomon", 2⟩ "web" = getCacheKey ⟨"Song\tof Solomon", 2⟩ "web" :=
  getCacheKey_deterministic_ws_normal "Song of Solomon" "Song\tof Solomon" 2 "web"
    (by decide)

/-- C10.  `markChapterComplete` appends the chapter key only when it is absent:
on a duplicate-free list the issued update is exactly the old list with the key
appended (existing order preserved), the updated list is still duplicate-free,
and a second invocation for the same chapter issues no further update. -/
theorem markChapterComplete_nodup (completed : List String) (key : String)
    (h : completed.Nodup) :
    (completed.contains key = true → markChapterComplete completed (some key) = none) ∧
    (completed.contains key = false →
      markChapterComplete completed (some key) = some (completed ++ [key]) ∧
      (completed ++ [key]).Nodup ∧
      markChapterComplete (completed ++ [key]) (some key) = none) := by
  constructor
  · intro hmem
    have hk : key ∈ completed := by simpa using hmem
    simp [markChapterComplete, hk]
  · intro hmem
    have hnotmem : key ∉ completed := by simpa using hmem
    refine ⟨by simp [markChapterComplete, hnotmem], ?_, ?_⟩
    · simpa [List.nodup_append, h] using hnotmem
    · simp [markChapterComplete]

/-- Witness for C10 at a concrete input. -/
theorem markChapterComplete_nodup_witness :
    (["Genesis-1"].contains "Genesis-1" = true →
      markChapterComplete ["Genesis-1"] (some "Genesis-1") = none) ∧
    (["Genesis-1"].contains "Genesis-2" = false →
      markChapterComplete ["Genesis-1"] (some "Genesis-2") =
        some (["Genesis-1"] ++ ["Genesis-2"]) ∧
      (["Genesis-1"] ++ ["Genesis-2"]).Nodup ∧
      markChapterComplete (["Genesis-1"] ++ ["Genesis-2"]) (some "Genesis-2") = none) :=
  ⟨(markChapterComplete_nodup ["Genesis-1"] "Genesis-1" (by decide)).1,
   (markChapterComplete_nodup ["Genesis-1"] "Genesis-2" (by decide)).2⟩

/-- C8 (amended).  On a stored non-empty blob, `robustSafeParse` returns the
fallback, deletes the key and invokes the corruption callback exactly once when
the blob fails to parse, and returns the parsed value with no deletion and no
callback when it parses; it never raises (it is a total function).  (The
empty-string blob, although it also fails `JSON.parse`, is short-circuited by
the falsy-check and returns the fallback with no deletion and no callback.) -/
theorem robustSafeParse_nonempty_blob (store : List (String × String))
    (key : String) (fallback : Json) (raw : String)
    (hraw : store.lookup key = some raw) (hne : raw ≠ "") :
    (jsonParse raw = none →
      robustSafeParse store key fallback = ⟨fallback, removeItem store key, 1⟩) ∧
    (∀ v, jsonParse raw = some v →
      robustSafeParse store key fallback = ⟨v, store, 0⟩) := by
  constructor
  · intro hp
    simp [robustSafeParse, hraw, hne, hp]
  · intro v hp
    simp [robustSafeParse, hraw, hne, hp]

/-- Witness for C8 at a concrete input: the blob `bad(` fails to parse, so the
fallback comes back, the key is removed and the callback runs once. -/
theorem robustSafeParse_nonempty_blob_witness :
    (jsonParse "bad(" = none →
      robustSafeParse [("cachedContent", "bad(")] "cachedContent" (Json.str "fb") =
        ⟨Json.str "fb", removeItem [("cachedContent", "bad(")] "cachedContent", 1⟩) ∧
    (∀ v, jsonParse "bad(" = some v →
      robustSafeParse [("cachedContent", "bad(")] "cachedContent" (Json.str "fb") =
        ⟨v, [("cachedContent", "bad(")], 0⟩) :=
  robustSafeParse_nonempty_blob [("cachedContent", "bad(")] "cachedContent"
    (Json.str "fb") "bad(" rfl (by decide)

/-- Counterexample to C8 as stated: the empty-string blob fails JSON parsing
(`JSON.parse("")` throws), yet `robustSafeParse` neither deletes the stored key
nor invokes the corruption callback — it returns the fallback leaving the
store untouched. -/
theorem robustSafeParse_empty_blob_counterexample :
    jsonParse "" = none ∧
    robustSafeParse [("cachedContent", "")] "cachedContent" (Json.str "fallback") =
      ⟨Json.str "fallback", [("cachedContent", "")], 0⟩ :=
  ⟨rfl, rfl⟩

/-- C9.  `robustSafeParse` performs no shape validation: whenever the stored
string parses as JSON of any shape, the parsed value — `null` included — is
returned rather than the fallback, with no deletion and no callback. -/
theorem robustSafeParse_no_shape_validation (store : List (String × String))
    (key : String) (fallback : Json) (raw : String) (v : Json)
    (hraw : store.lookup key = some raw) (hp : jsonParse raw = some v) :
    robustSafeParse store key fallback = ⟨v, store, 0⟩ := by
  have hne : raw ≠ "" := by
    intro h
    rw [h] at hp
    exact Option.noConfusion ((rfl : jsonParse "" = none) ▸ hp)
  simp [robustSafeParse, hraw, hne, hp]

/-- Witness for C9 at a concrete input: the stored three-character string
`null` parses to the JSON value `null`, which is returned in place of the
fallback. -/
theorem robustSafeParse_no_shape_validation_witness :
    robustSafeParse [("cachedContent", "null")] "cachedContent" (Json.str "fb") =
      ⟨Json.null, [("cachedContent", "null")], 0⟩ :=
  robustSafeParse_no_shape_validation [("cachedContent", "null")] "cachedContent"
    (Json.str "fb") "null" Json.null rfl rfl

lemma mem_map_fst_patchEntry (k s : String) (o : Option Json) :
    (k ∈ (patchEntry s o).map Prod.fst) ↔ (k = s ∧ o.isSome = true) := by
  cases o <;> simp [patchEntry]

lemma mem_map_fst_patchEntry_append (k s : String) (o : Option Json)
    (rest : List (String × Json)) :
    (k ∈ (patchEntry s o ++ rest).map Prod.fst) ↔
      ((k = s ∧ o.isSome = true) ∨ k ∈ rest.map Prod.fst) := by
  cases o <;> simp [patchEntry]

/-- C6.  `toSupabase` produces a patch whose keys are exactly the wire names of
the fields present (not `undefined`) in the partial update: a key appears in
the patch if and only if its field is defined, so a field absent from the
input never appears, and an input defining only one field yields a patch with
only that wire key. -/
theorem toSupabase_exact_keys (data : PartialUserData) (k : String) :
    (k ∈ (toSupabase data).map Prod.fst) ↔
      ((k = "username" ∧ data.username.isSome = true) ∨
       (k = "study_mode" ∧ data.studyMode.isSome = true) ∨
       (k = "read_through_index" ∧ data.readThroughIndex.isSome = true) ∨
       (k = "user_selected_chapter" ∧ data.userSelectedChapter.isSome = true) ∨
       (k = "completed_chapters" ∧ data.completedChapters.isSome = true) ∨
       (k = "bookmarks" ∧ data.bookmarks.isSome = true) ∨
       (k = "notes" ∧ data.notes.isSome = true) ∨
       (k = "cached_content" ∧ data.cachedContent.isSome = true) ∨
       (k = "translation" ∧ data.translation.isSome = true)) := by
  simp only [toSupabase, mem_map_fst_patchEntry_append, mem_map_fst_patchEntry]

/-- C3 at its failing input: against a backend whose every attempt reports
"row not found" (PostgREST code `PGRST116`), `getUserData` performs a single
query attempt, sleeps not at all, and throws (its promise rejects with the
`ReferenceError` raised at the unbound `error` read) instead of retrying with
500/1000 ms backoff and returning `null` after 3 attempts as the claim — and
the retry code the source carries — intends. -/
theorem getUserData_not_found_throws :
    getUserData (fun _ => .err "PGRST116") = ⟨1, [], .threw⟩ :=
  rfl

/-- C2 (amended).  `fromSupabase` is total and substitutes the documented
defaults for missing or falsy wire values (`"User"`, read-through mode, index
0, empty array, empty object, `"web"`); the two `Array.isArray`-guarded fields
are always genuine arrays (the wire array itself, or empty); but the
`|| default` fields — study mode, translation, notes, cached content — pass a
truthy wire value through unvalidated, so the enum-membership and
object-shape guarantees hold only when the wire value was absent or itself
well-formed. -/
theorem fromSupabase_defaults_and_guards (p : ProfileRow) :
    (p.username.truthy = false → (fromSupabase p).username = .str "User") ∧
    (p.study_mode.truthy = false → (fromSupabase p).studyMode = .str "Read Through") ∧
    (p.study_mode.truthy = true → (fromSupabase p).studyMode = p.study_mode) ∧
    (validStudyMode p.study_mode = true → validStudyMode (fromSupabase p).studyMode = true) ∧
    (∀ xs, p.completed_chapters = .arr xs → (fromSupabase p).completedChapters = xs) ∧
    (p.completed_chapters.isArr = false → (fromSupabase p).completedChapters = []) ∧
    (∀ xs, p.bookmarks = .arr xs → (fromSupabase p).bookmarks = xs) ∧
    (p.bookmarks.isArr = false → (fromSupabase p).bookmarks = []) ∧
    (p.notes.truthy = false → (fromSupabase p).notes = .obj []) ∧
    (p.cached_content.truthy = false → (fromSupabase p).cachedContent = .obj []) ∧
    (p.translation.truthy = false → (fromSupabase p).translation = .str "web") ∧
    (p.read_through_index = .null → (fromSupabase p).readThroughIndex = .num 0) := by
  refine ⟨?_, ?_, ?_, ?_, ?_, ?_, ?_, ?_, ?_, ?_, ?_, ?_⟩
  · intro h; simp [fromSupabase, h]
  · intro h; simp [fromSupabase, h]
  · intro h; simp [fromSupabase, h]
  · intro h
    have ht : p.study_mode.truthy = true := by
      cases hm : p.study_mode with
      | str s =>
          by_contra hf
          have hs : s = "" := by simpa [Json.truthy] using hf
          rw [hm, hs] at h
          exact absurd h (by decide)
      | null => rw [hm] at h; simp [validStudyMode] at h
      | bool b => rw [hm] at h; simp [validStudyMode] at h
      | num n => rw [hm] at h; simp [validStudyMode] at h
      | arr xs => rw [hm] at h; simp [validStudyMode] at h
      | obj fs => rw [hm] at h; simp [validStudyMode] at h
    simp [fromSupabase, ht, h]
  · intro xs h; simp [fromSupabase, h]
  · intro h
    cases hm : p.completed_chapters <;> rw [hm] at h <;>
      simp [Json.isArr] at h ⊢ <;> simp [fromSupabase, hm]
  · intro xs h; simp [fromSupabase, h]
  · intro h
    cases hm : p.bookmarks <;> rw [hm] at h <;>
      simp [Json.isArr] at h ⊢ <;> simp [fromSupabase, hm]
  · intro h; simp [fromSupabase, h]
  · intro h; simp [fromSupabase, h]
  · intro h; simp [fromSupabase, h]
  · intro h; simp [fromSupabase, h]

/-- Witness for C2 at a concrete input: the all-`null` wire row decodes to the
documented defaults. -/
theorem fromSupabase_defaults_and_guards_witness :
    ((Json.null.truthy = false → (fromSupabase ⟨.null, .null, .null, .null, .null,
        .null, .null, .null, .null, .null, .null⟩).username = .str "User") ∧
     (Json.null.truthy = false → (fromSupabase ⟨.null, .null, .null, .null, .null,
        .null, .null, .null, .null, .null, .null⟩).studyMode = .str "Read Through") ∧
     (Json.null.truthy = true → (fromSupabase ⟨.null, .null, .null, .null, .null,
        .null, .null, .null, .null, .null, .null⟩).studyMode = Json.null) ∧
     (validStudyMode Json.null = true → validStudyMode (fromSupabase ⟨.null, .null,
        .null, .null, .null, .null, .null, .null, .null, .null, .null⟩).studyMode = true) ∧
     (∀ xs, Json.null = .arr xs → (fromSupabase ⟨.null, .null, .null, .null, .null,
        .null, .null, .null, .null, .null, .null⟩).completedChapters = xs) ∧
     (Json.null.isArr = false → (fromSupabase ⟨.null, .null, .null, .null, .null,
        .null, .null, .null, .null, .null, .null⟩).completedChapters = []) ∧
     (∀ xs, Json.null = .arr xs → (fromSupabase ⟨.null, .null, .null, .null, .null,
        .null, .null, .null, .null, .null, .null⟩).bookmarks = xs) ∧
     (Json.null.isArr = false → (fromSupabase ⟨.null, .null, .null, .null, .null,
        .null, .null, .null, .null, .null, .null⟩).bookmarks = []) ∧
     (Json.null.truthy = false → (fromSupabase ⟨.null, .null, .null, .null, .null,
        .null, .null, .null, .null, .null, .null⟩).notes = .obj []) ∧
     (Json.null.truthy = false → (fromSupabase ⟨.null, .null, .null, .null, .null,
        .null, .null, .null, .null, .null, .null⟩).cachedContent = .obj []) ∧
     (Json.null.truthy = false → (fromSupabase ⟨.null, .null, .null, .null, .null,
        .null, .null, .null, .null, .null, .null⟩).translation = .str "web") ∧
     (Json.null = .null → (fromSupabase ⟨.null, .null, .null, .null, .null,
        .null, .null, .null, .null, .null, .null⟩).readThroughIndex = .num 0)) :=
  fromSupabase_defaults_and_guards
    ⟨.null, .null, .null, .null, .null, .null, .null, .null, .null, .null, .null⟩

/-- A wire row whose `study_mode` holds a non-member string and whose `notes`
holds a string where an object is expected. -/
def badProfileRow : ProfileRow :=
  { id := .str "u1"
    updated_at := .null
    username := .null
    study_mode := .str "bogus"
    read_through_index := .null
    user_selected_chapter := .null
    completed_chapters := .null
    bookmarks := .null
    notes := .str "oops"
    cached_content := .null
    translation := .null }

/-- Counterexample to C2 as stated: on a wire row with the wrongly-typed truthy
values `study_mode = "bogus"` and `notes = "oops"`, the decoded study mode is
not a member of the `StudyMode` enumeration and the decoded notes field is not
an object — `fromSupabase` passes both through verbatim instead of
substituting the documented defaults. -/
theorem fromSupabase_counterexample :
    validStudyMode (fromSupabase badProfileRow).studyMode = false ∧
    (fromSupabase badProfileRow).notes.isObj = false :=
  ⟨rfl, rfl⟩

/-- C1.  A `CachedChapterContent` bundle is written to the persistent cache —
one backend update carrying the merged `cachedContent` mapping — if and only
if the run is not a cache hit, the fetched verse list is non-empty, the
deep-dive result is non-null and the enrichment fetch returned a non-null
result; on any other outcome no write is issued, and any issued write changes
only the mapping of the current cache key. -/
theorem fetchAllChapterData_cache_write_iff
    (cachedContent : String → Option CachedChapterContent)
    (ch : ChapterIdentifier) (tr : String) (env : FetchEnv) :
    ((fetchAllChapterData cachedContent ch tr env).write.isSome = true ↔
      (cachedContent (getCacheKey ch tr) = none ∧
        ∃ vs, env.textResult = Except.ok vs ∧ vs.length > 0 ∧
          env.deepDive.isSome = true ∧ env.enrichments.isSome = true)) ∧
    (∀ m, (fetchAllChapterData cachedContent ch tr env).write = some m →
      ∃ vs deepDive enrichments,
        env.textResult = Except.ok vs ∧ env.deepDive = some deepDive ∧
        env.enrichments = some enrichments ∧
        m (getCacheKey ch tr) = some ⟨vs, some deepDive, enrichments⟩ ∧
        ∀ k, k ≠ getCacheKey ch tr → m k = cachedContent k) := by
  cases hcache : cachedContent (getCacheKey ch tr) with
  | some b =>
      constructor
      · simp [fetchAllChapterData, hcache]
      · intro m hm
        simp [fetchAllChapterData, hcache] at hm
  | none =>
      cases htext : env.textResult with
      | error msg =>
          constructor
          · simp [fetchAllChapterData, hcache, htext]
          · intro m hm
            simp [fetchAllChapterData, hcache, htext] at hm
      | ok vs =>
          cases hdd : env.deepDive with
          | none =>
              constructor
              · simp [fetchAllChapterData, hcache, htext, hdd]
              · intro m hm
                simp [fetchAllChapterData, hcache, htext, hdd] at hm
          | some deepDive =>
              cases hen : env.enrichments with
              | none =>
                  constructor
                  · simp [fetchAllChapterData, hcache, htext, hdd, hen]
                  · intro m hm
                    simp [fetchAllChapterData, hcache, htext, hdd, hen] at hm
              | some enrichments =>
                  by_cases hlen : vs.length > 0
                  · constructor
                    · simp [fetchAllChapterData, hcache, htext, hdd, hen, hlen]
                    · intro m hm
                      simp only [fetchAllChapterData, hcache, htext, hdd, hen,
                        if_pos hlen] at hm
                      have hmm := Option.some.inj hm
                      refine ⟨vs, deepDive, enrichments, rfl, rfl, rfl, ?_, ?_⟩
                      · rw [← hmm]
                        simp
                      · intro k hk
                        rw [← hmm]
                        simp [hk]
                  · constructor
                    · simp [fetchAllChapterData, hcache, htext, hdd, hen, hlen]
                    · intro m hm
                      simp [fetchAllChapterData, hcache, htext, hdd, hen, hlen] at hm

/-- C5.  On a thrown fetch failure, `fetchAllChapterData` renders exactly one
verse whose number is the sentinel 0 and whose text is the daily-limit message
when the underlying error message mentions `quota`, and otherwise a generic
message embedding the underlying error text; it also renders the synthesized
all-empty enrichment object, never a null one, and writes nothing. -/
theorem fetchAllChapterData_error_fallback
    (cachedContent : String → Option CachedChapterContent)
    (ch : ChapterIdentifier) (tr : String) (env : FetchEnv) (msg : String)
    (hc : cachedContent (getCacheKey ch tr) = none)
    (ht : env.textResult = Except.error msg) :
    (fetchAllChapterData cachedContent ch tr env).verses =
      [⟨"", ch.book, ch.chapter, 0,
        if strIncludes msg "quota" then
          "Failed to load chapter data: Daily API quota exceeded. Please try again tomorrow."
        else
          "There was an error loading the chapter text: " ++ msg ++ ". Please try again."⟩] ∧
    (fetchAllChapterData cachedContent ch tr env).allEnrichmentData =
      some emptyEnrichment ∧
    (fetchAllChapterData cachedContent ch tr env).write = none := by
  refine ⟨?_, ?_, ?_⟩ <;> simp [fetchAllChapterData, hc, ht]

/-- Witness for C5 at concrete inputs: a quota error and a generic error. -/
theorem fetchAllChapterData_error_fallback_witness :
    ((fetchAllChapterData (fun _ => none) ⟨"Genesis", 1⟩ "web"
        ⟨Except.error "You exceeded your current quota", none, none⟩).verses =
      [⟨"", "Genesis", 1, 0,
        if strIncludes "You exceeded your current quota" "quota" then
          "Failed to load chapter data: Daily API quota exceeded. Please try again tomorrow."
        else
          "There was an error loading the chapter text: You exceeded your current quota. Please try again."⟩] ∧
     (fetchAllChapterData (fun _ => none) ⟨"Genesis", 1⟩ "web"
        ⟨Except.error "You exceeded your current quota", none, none⟩).allEnrichmentData =
       some emptyEnrichment ∧
     (fetchAllChapterData (fun _ => none) ⟨"Genesis", 1⟩ "web"
        ⟨Except.error "You exceeded your current quota", none, none⟩).write = none) :=
  fetchAllChapterData_error_fallback (fun _ => none) ⟨"Genesis", 1⟩ "web"
    ⟨Except.error "You exceeded your current quota", none, none⟩
    "You exceeded your current quota" rfl rfl

/-- A non-empty deep dive, as the AI service would return on success. -/
def sampleDeepDive : DeepDiveData :=
  { summaryAndThemes := "Creation ordered from chaos"
    historicalContext := "Ancient Near Eastern setting"
    keyVerses := [⟨"Genesis 1:1", "The opening statement"⟩]
    reflectionQuestions := ["What stands out to you?"] }

/-- A non-empty enrichment result, as the AI service would return on success. -/
def sampleEnrichment : AllEnrichmentData :=
  { crossReferences := [⟨"John 1:1", "Echoes the opening of Genesis", some 1⟩]
    wordStudies := []
    historicalContext := ⟨"Mesopotamian region", "", ""⟩
    literaryAnalysis := ⟨"Seven-day structure", ["order"]⟩
    interpretations := [] }

/-- C4 at its failing input: when the verse-text fetch throws a quota error
while the AI services would have returned real data, the run jumps to the
catch block — the deep-dive/enrichment fetches never start, the rendered
enrichment content is the synthesized all-empty object rather than the real
data, the bundle is not cached, and the rendered verse list is the single
sentinel verse 0 with the quota message.  This contradicts the claim (and the
source comment) that a text-fetch error does not abort the enrichment fetch. -/
theorem fetchAllChapterData_text_error_aborts_enrichment :
    (fetchAllChapterData (fun _ => none) ⟨"Genesis", 1⟩ "web"
        ⟨Except.error "You exceeded your current quota", some sampleDeepDive,
          some sampleEnrichment⟩).enrichmentFetchRan = false ∧
    (fetchAllChapterData (fun _ => none) ⟨"Genesis", 1⟩ "web"
        ⟨Except.error "You exceeded your current quota", some sampleDeepDive,
          some sampleEnrichment⟩).allEnrichmentData = some emptyEnrichment ∧
    sampleEnrichment ≠ emptyEnrichment ∧
    (fetchAllChapterData (fun _ => none) ⟨"Genesis", 1⟩ "web"
        ⟨Except.error "You exceeded your current quota", some sampleDeepDive,
          some sampleEnrichment⟩).write = none ∧
    (fetchAllChapterData (fun _ => none) ⟨"Genesis", 1⟩ "web"
        ⟨Except.error "You exceeded your current quota", some sampleDeepDive,
          some sampleEnrichment⟩).verses =
      [⟨"", "Genesis", 1, 0,
        "Failed to load chapter data: Daily API quota exceeded. Please try again tomorrow."⟩] :=
  ⟨rfl, rfl, by decide, rfl, rfl⟩

end BibleStudy
